import Mathlib

/-!
# engine_installer: the orchestration of `main`

A shallow embedding of `installer/engine_installer/engine_installer.go`.

* Go strings are Lean strings; a pointer is an `Option` (`none` is the nil
  pointer, `some v` a pointer to a variable holding `v`).
* The pieces of the Go standard library that `main` calls (`net/url`'s
  `UserPassword`, `Username`, `Password`, `(*Userinfo).String`, `escape`, and the
  `%s` rendering of `fmt`) are transcribed from the library's source.
* The collaborator (`data.NewData`, `validate.NewValidator`,
  `(*Validator).ListDatacenters`, the `%+v` rendering of `*data.Data`) is not
  part of the file: it is a parameter of every run, see `Collab`. The fields of
  `data.Data` that `main` leaves alone travel through the construction as `Rest`.
* `main` itself is a tree of effects (`Prog`); `exec` runs such a tree against a
  collaborator and records what was written and what was called.
-/

namespace EngineInstaller

/-! ## net/url -/

/-- The Go `encoding` modes of `net/url` (the `iota` constants of url.go). -/
inductive encoding where
  | encodePath
  | encodePathSegment
  | encodeHost
  | encodeZone
  | encodeUserPassword
  | encodeQueryComponent
  | encodeFragment
deriving DecidableEq, Repr

/-- Membership of a byte in a Go `case 'a', 'b', ...:` list. -/
def isOneOf (c : Nat) (cs : List Char) : Bool :=
  cs.any fun x => x.toNat == c

/-- Go `shouldEscape(c byte, mode encoding) bool` of net/url. -/
def shouldEscape (c : Nat) (mode : encoding) : Bool :=
  -- §2.3 Unreserved characters (alphanum)
  if ('a'.toNat ≤ c && c ≤ 'z'.toNat) || ('A'.toNat ≤ c && c ≤ 'Z'.toNat)
      || ('0'.toNat ≤ c && c ≤ '9'.toNat) then false
  else if (mode == encoding.encodeHost || mode == encoding.encodeZone)
      && isOneOf c ['!', '$', '&', '\'', '(', ')', '*', '+', ',', ';', '=', ':', '[', ']',
                    '<', '>', '"'] then false
  -- §2.3 Unreserved characters (mark)
  else if isOneOf c ['-', '_', '.', '~'] then false
  -- §2.2 Reserved characters (reserved)
  else if isOneOf c ['$', '&', '+', ',', '/', ':', ';', '=', '?', '@'] then
    match mode with
    | encoding.encodePath => c == '?'.toNat
    | encoding.encodePathSegment =>
        c == '/'.toNat || c == ';'.toNat || c == ','.toNat || c == '?'.toNat
    | encoding.encodeUserPassword =>
        c == '@'.toNat || c == '/'.toNat || c == '?'.toNat || c == ':'.toNat
    | encoding.encodeQueryComponent => true
    | encoding.encodeFragment => false
    | _ => true
  else if mode == encoding.encodeFragment && isOneOf c ['!', '(', ')', '*'] then false
  -- Everything else must be escaped.
  else true

/-- The bytes of one character in a Go string (its UTF-8 encoding). -/
def utf8Bytes (c : Char) : List Nat :=
  let v := c.toNat
  if v < 0x80 then [v]
  else if v < 0x800 then [0xC0 + v / 0x40, 0x80 + v % 0x40]
  else if v < 0x10000 then [0xE0 + v / 0x1000, 0x80 + v / 0x40 % 0x40, 0x80 + v % 0x40]
  else [0xF0 + v / 0x40000, 0x80 + v / 0x1000 % 0x40, 0x80 + v / 0x40 % 0x40, 0x80 + v % 0x40]

/-- Go `upperhex[i]`, with `upperhex = "0123456789ABCDEF"`. -/
def upperhex (i : Nat) : Char :=
  "0123456789ABCDEF".data.getD i '0'

/-- What Go `escape` writes for one byte of its argument. -/
def escapeByte (mode : encoding) (c : Nat) : List Char :=
  if shouldEscape c mode then
    if c == ' '.toNat && mode == encoding.encodeQueryComponent then ['+']
    else ['%', upperhex (c / 16), upperhex (c % 16)]
  else [Char.ofNat c]

/-- Go `escape(s string, mode encoding) string` of net/url: a string none of whose bytes
needs escaping is returned as it is, otherwise each byte is copied or written as `%XX`. -/
def escape (s : String) (mode : encoding) : String :=
  let bs := s.data.flatMap utf8Bytes
  if bs.all (fun c => !shouldEscape c mode) then s
  else String.mk (bs.flatMap (escapeByte mode))

/-- Go `url.Userinfo`: `username`, `password`, `passwordSet`. -/
structure Userinfo where
  username : String
  password : String
  passwordSet : Bool
deriving DecidableEq, Repr

/-- Go `url.UserPassword(username, password string) *Userinfo`:
`return &Userinfo{username, password, true}`. -/
def UserPassword (username password : String) : Option Userinfo :=
  some { username := username, password := password, passwordSet := true }

/-- Go `func (u *Userinfo) Username() string`. -/
def Userinfo.Username : Option Userinfo → String
  | none => ""
  | some u => u.username

/-- Go `func (u *Userinfo) Password() (string, bool)`. -/
def Userinfo.Password : Option Userinfo → String × Bool
  | none => ("", false)
  | some u => (u.password, u.passwordSet)

/-- Go `func (u *Userinfo) String() string`: the encoded `username[:password]`. -/
def Userinfo.String : Option Userinfo → String
  | none => ""
  | some u =>
    let s := escape u.username encoding.encodeUserPassword
    if u.passwordSet then s ++ (":" ++ escape u.password encoding.encodeUserPassword) else s

/-- Go `url.URL`, field by field in the declaration order of Go 1.19 to 1.25 (Go 1.8 has
neither `OmitHost` nor `RawFragment`). The order matters only to the exact text of
`fmtURLValueS`. -/
structure URL where
  Scheme : String
  Opaque : String
  User : Option Userinfo
  Host : String
  Path : String
  RawPath : String
  OmitHost : Bool
  ForceQuery : Bool
  RawQuery : String
  Fragment : String
  RawFragment : String
deriving DecidableEq, Repr

/-- The zero value of `url.URL`, what `var u url.URL` declares. -/
def URL.zero : URL :=
  { Scheme := "", Opaque := "", User := none, Host := "", Path := "", RawPath := "",
    OmitHost := false, ForceQuery := false, RawQuery := "", Fragment := "", RawFragment := "" }

/-! ## fmt -/

/-- What `fmt` writes for a `bool` under the verb `%s`: `badVerb`, that is
`%!s(bool=false)` or `%!s(bool=true)`. -/
def fmtBoolS (b : Bool) : String :=
  "%!s(bool=" ++ (if b then "true" else "false") ++ ")"

/-- What `fmt` writes for a `url.URL` VALUE under the verb `%s`. Every method of
`url.URL` has a pointer receiver, so the value is no `Stringer` and `printValue` prints the
struct: an opening brace, the fields separated by one space, a closing brace. A string field
is written as it is, a bool field is a bad verb, and the `*Userinfo` field, a `Stringer`
reached at depth 1, is written through its `String` method. -/
def fmtURLValueS (u : URL) : String :=
  "\x7b" ++ " ".intercalate
    [u.Scheme, u.Opaque, Userinfo.String u.User, u.Host, u.Path, u.RawPath,
     fmtBoolS u.OmitHost, fmtBoolS u.ForceQuery, u.RawQuery, u.Fragment, u.RawFragment]
    ++ "\x7d"

/-! ## The collaborator: lib/install/data and lib/install/validate -/

/-- The fields of `data.Data` that `main` neither reads nor writes. Their declaration is in
lib/install/data, so they are kept together as one value that nothing here looks into; two
such values differ when some field of the two structs differs. -/
structure DataRest where
  tag : Nat
deriving DecidableEq, Repr

/-- Go `data.Data`: the fields `main` assigns, `URL`, `User` and `Password` (promoted from
the embedded `*common.Target`), `OpsUser`, `OpsPassword` and `Force`, and in `Rest` every
other field, as `data.NewData()` filled it. -/
structure Data where
  URL : Option URL
  User : String
  Password : Option String
  OpsUser : String
  OpsPassword : Option String
  Force : Bool
  Rest : DataRest
deriving DecidableEq, Repr

/-- Modelled from the spec: `data.NewData` lives in lib/install/data, outside the given
sources. The spec's descriptor is "constructed once" from the literals, with the path empty
and the force flag false unless given, so a fresh `Data` holds the Go zero value in every
field that `main` assigns afterwards. -/
def NewData : Data :=
  { URL := none, User := "", Password := none, OpsUser := "", OpsPassword := none,
    Force := false, Rest := { tag := 0 } }

/-- A non-nil Go `error`: the text its `Error()` method returns. -/
structure GoError where
  Error : String
deriving DecidableEq, Repr

/-! ## main as a tree of effects -/

/-- The effects of `main`, in the order it performs them. `V` is the type of the handle
`validate.NewValidator` returns (a `*validate.Validator`, possibly nil). -/
inductive Prog (V : Type) where
  /-- Leaving `main`, by `return` or by reaching its end. -/
  | ret : Prog V
  /-- One call of `fmt.Println` or `fmt.Printf` whose text the file determines. -/
  | print (text : String) (k : Prog V) : Prog V
  /-- Calling `data.NewData()`. -/
  | newData (k : Data → Prog V) : Prog V
  /-- Calling `fmt.Printf("%+v\n", input)`. -/
  | printPlusV (input : Data) (k : Prog V) : Prog V
  /-- Calling `validate.NewValidator(ctx, input)`, which returns a handle and an error. -/
  | newValidator (input : Data) (k : V × Option GoError → Prog V) : Prog V
  /-- Calling `validator.ListDatacenters()`, which returns a slice and an error. -/
  | listDatacenters (validator : V) (k : List String × Option GoError → Prog V) : Prog V

/-- Lines 36-39 of `main`: `var u url.URL`, then `u.User`, `u.Host` and `u.Path`, with the
literals `username`, `password`, the host and the path as parameters. -/
def connectionURL (host username password path : String) : URL :=
  let u := URL.zero
  let u := { u with User := UserPassword username password }
  let u := { u with Host := host }
  let u := { u with Path := path }
  u

/-- Lines 44-51 of `main`: the assignments to the `input` that `data.NewData()` returned,
with the literal of `input.Force` as a parameter. -/
def populate (input : Data) (u : URL) (username : String) (force : Bool) : Data :=
  let input := { input with OpsUser := Userinfo.Username u.User }
  let passwd := (Userinfo.Password u.User).1
  let input := { input with OpsPassword := some passwd }
  let input := { input with URL := some u }
  let input := { input with Force := force }
  let input := { input with User := username }
  let input := { input with Password := some passwd }
  input

/-- The descriptor construction of `main` (lines 33-51) as one function of the values the
file writes as literals; `input` is what `data.NewData()` returned. -/
def buildDescriptor (input : Data) (host username password path : String) (force : Bool) :
    Data :=
  populate input (connectionURL host username password path) username force

/-- Lines 65-67 of `main`: the loop `for _, d := range dcs` around
`fmt.Printf("DC: %s\n", d)`; a nil slice is the empty list. -/
def printDatacenters {V : Type} : List String → Prog V → Prog V
  | [], k => k
  | d :: dcs, k => Prog.print ("DC: " ++ d ++ "\n") (printDatacenters dcs k)

/-- The body of `main` with its literals as parameters. `fmt.Println("hello world")` writes
the text and a newline, `%s` of an error writes the text of its `Error()`, and
`fmt.Println(err)` that text and a newline. The context `context.TODO()` is a constant that
only travels to `validate.NewValidator`. -/
def mainWith {V : Type} (host username password path : String) (force : Bool) : Prog V :=
  Prog.print "hello world\n" <|
  let u := connectionURL host username password path
  Prog.print ("server URL: " ++ fmtURLValueS u ++ "\n") <|
  Prog.newData fun input =>
  let input := populate input u username force
  Prog.printPlusV input <|
  Prog.newValidator input fun r =>
  match r.2 with
  | some err => Prog.print ("validator: " ++ err.Error) Prog.ret
  | none =>
    Prog.listDatacenters r.1 fun q =>
    match q.2 with
    | some err => Prog.print (err.Error ++ "\n") Prog.ret
    | none => printDatacenters q.1 Prog.ret

/-- Go `func main()` of engine_installer.go. -/
def main {V : Type} : Prog V :=
  mainWith "192.168.1.86" "root" "password" "" true

/-! ## Running main against a collaborator -/

/-- A collaborator: what the code outside the file answers. `σ` is its state (the remote
endpoint, the session), threaded through the two calls of the validation service. -/
structure Collab (σ V : Type) where
  /-- The value `data.NewData()` returns. -/
  newData : Data
  /-- The text `fmt` writes for `input` under `%+v`. -/
  fmtPlusV : Data → String
  /-- The answer of `validate.NewValidator(ctx, input)`. -/
  newValidator : σ → Data → (V × Option GoError) × σ
  /-- The answer of `validator.ListDatacenters()`. -/
  listDatacenters : σ → V → (List String × Option GoError) × σ

/-- What a run does that the outside can observe. -/
inductive Event (V : Type) where
  /-- Text written to standard output by one call of `fmt`. -/
  | out (text : String) : Event V
  /-- A call of `validate.NewValidator` with its argument and its answer. -/
  | newValidator (input : Data) (res : V × Option GoError) : Event V
  /-- A call of `ListDatacenters` with its receiver and its answer. -/
  | listDatacenters (validator : V) (res : List String × Option GoError) : Event V

/-- Runs a program against a collaborator from the state `s`: the events, in order. -/
def exec {σ V : Type} (c : Collab σ V) : Prog V → σ → List (Event V)
  | Prog.ret, _ => []
  | Prog.print text k, s => Event.out text :: exec c k s
  | Prog.newData k, s => exec c (k c.newData) s
  | Prog.printPlusV input k, s => Event.out (c.fmtPlusV input ++ "\n") :: exec c k s
  | Prog.newValidator input k, s =>
    let r := c.newValidator s input
    Event.newValidator input r.1 :: exec c (k r.1) r.2
  | Prog.listDatacenters v k, s =>
    let r := c.listDatacenters s v
    Event.listDatacenters v r.1 :: exec c (k r.1) r.2

/-- The texts written to standard output, one per call of `fmt`, in order. -/
def outputs {V : Type} : List (Event V) → List String
  | [] => []
  | Event.out text :: t => text :: outputs t
  | _ :: t => outputs t

/-- The arguments of the calls of `validate.NewValidator`, in order. -/
def validatorInputs {V : Type} : List (Event V) → List Data
  | [] => []
  | Event.newValidator input _ :: t => input :: validatorInputs t
  | _ :: t => validatorInputs t

/-- Whether an event is a call of `validate.NewValidator`. -/
def Event.isNewValidator {V : Type} : Event V → Bool
  | Event.newValidator _ _ => true
  | _ => false

/-- Whether an event is a call of `ListDatacenters`. -/
def Event.isListDatacenters {V : Type} : Event V → Bool
  | Event.listDatacenters _ _ => true
  | _ => false

/-- Whether an event is a call that returned a non-nil error. -/
def Event.failed {V : Type} : Event V → Bool
  | Event.newValidator _ r => r.2.isSome
  | Event.listDatacenters _ r => r.2.isSome
  | Event.out _ => false

/-- Whether every call that returned an error is the last call of the run. -/
def failuresAreTerminal {V : Type} : List (Event V) → Bool
  | [] => true
  | e :: t =>
    (!e.failed || t.all fun e2 => !(e2.isNewValidator || e2.isListDatacenters))
      && failuresAreTerminal t

/-- Whether the text `w` begins with the text `p`. -/
def beginsWith (p w : String) : Prop :=
  p.data <+: w.data

instance (p w : String) : Decidable (beginsWith p w) :=
  inferInstanceAs (Decidable (p.data <+: w.data))

/-- The descriptor `main` hands to `validate.NewValidator` when `data.NewData()` returned
`input`: the construction at the literals of the file. -/
def mainInput (input : Data) : Data :=
  buildDescriptor input "192.168.1.86" "root" "password" "" true

/-- The text `main` writes at line 40, `fmt.Printf("server URL: %s\n", u)`. -/
def serverURLLine : String :=
  "server URL: " ++ fmtURLValueS (connectionURL "192.168.1.86" "root" "password" "") ++ "\n"

/-- Whether the text `sub` occurs in the text `w`. -/
def occursIn (sub w : String) : Prop :=
  sub.data <:+: w.data

instance (sub w : String) : Decidable (occursIn sub w) :=
  inferInstanceAs (Decidable (sub.data <:+: w.data))

/-- A collaborator without state that answers `validate.NewValidator` with the error `nv`
(nil when `none`) and `ListDatacenters` with `ld`, and echoes a descriptor by its two user
names. -/
def scripted (nv : Option GoError) (ld : List String × Option GoError) : Collab Unit Unit :=
  { newData := NewData
    fmtPlusV := fun d => "&\x7bOpsUser:" ++ d.OpsUser ++ " User:" ++ d.User ++ "\x7d"
    newValidator := fun s _ => (((), nv), s)
    listDatacenters := fun s _ => (ld, s) }

/-- The data-model invariant "username and password are set together or not at all", for
the administrative and for the operations credentials: a user name is set when it is not
empty, a password when its pointer is not nil. -/
def credentialsSetTogether (d : Data) : Prop :=
  (d.User ≠ "" ↔ d.Password ≠ none) ∧ (d.OpsUser ≠ "" ↔ d.OpsPassword ≠ none)

instance (d : Data) : Decidable (credentialsSetTogether d) :=
  inferInstanceAs (Decidable (_ ∧ _))

/-- The data-model invariant "host must be a non-empty address": the descriptor has a URL
and its `Host` is not empty. -/
def hostNonEmpty (d : Data) : Prop :=
  (d.URL.map URL.Host).getD "" ≠ ""

instance (d : Data) : Decidable (hostNonEmpty d) :=
  inferInstanceAs (Decidable (_ ≠ _))

/-! ## Traces of main -/

theorem exec_printDatacenters {σ V : Type} (c : Collab σ V) (dcs : List String) (k : Prog V)
    (s : σ) :
    exec c (printDatacenters dcs k) s
      = dcs.map (fun d => Event.out ("DC: " ++ d ++ "\n")) ++ exec c k s := by
  induction dcs with
  | nil => rfl
  | cons d dcs ih => simp [printDatacenters, exec, ih]

theorem outputs_append {V : Type} (t u : List (Event V)) :
    outputs (t ++ u) = outputs t ++ outputs u := by
  induction t with
  | nil => rfl
  | cons e t ih => cases e <;> simp [outputs, ih]

theorem outputs_map_out {V : Type} (ws : List String) :
    outputs (ws.map (fun w => (Event.out w : Event V))) = ws := by
  induction ws with
  | nil => rfl
  | cons w ws ih => simp [outputs, ih]

/-- The run of `main`, whatever its literals and whatever the collaborator answers. -/
theorem exec_mainWith {σ V : Type} (c : Collab σ V) (s : σ)
    (host username password path : String) (force : Bool) :
    exec c (mainWith host username password path force) s =
      [Event.out "hello world\n",
       Event.out ("server URL: " ++ fmtURLValueS (connectionURL host username password path)
          ++ "\n"),
       Event.out (c.fmtPlusV (buildDescriptor c.newData host username password path force)
          ++ "\n"),
       Event.newValidator (buildDescriptor c.newData host username password path force)
         (c.newValidator s (buildDescriptor c.newData host username password path force)).1]
      ++ (match (c.newValidator s
                  (buildDescriptor c.newData host username password path force)).1.2 with
          | some e => [Event.out ("validator: " ++ e.Error)]
          | none =>
            Event.listDatacenters
              (c.newValidator s
                (buildDescriptor c.newData host username password path force)).1.1
              (c.listDatacenters
                (c.newValidator s
                  (buildDescriptor c.newData host username password path force)).2
                (c.newValidator s
                  (buildDescriptor c.newData host username password path force)).1.1).1
            :: (match (c.listDatacenters
                  (c.newValidator s
                    (buildDescriptor c.newData host username password path force)).2
                  (c.newValidator s
                    (buildDescriptor c.newData host username password path force)).1.1).1.2 with
                | some e => [Event.out (e.Error ++ "\n")]
                | none =>
                  (c.listDatacenters
                    (c.newValidator s
                      (buildDescriptor c.newData host username password path force)).2
                    (c.newValidator s
                      (buildDescriptor c.newData host username password path force)).1.1).1.1.map
                    (fun d => Event.out ("DC: " ++ d ++ "\n")))) := by
  simp only [mainWith, exec, buildDescriptor]
  cases h1 : (c.newValidator s (populate c.newData
      (connectionURL host username password path) username force)).1.2 with
  | some e => simp [exec]
  | none =>
    simp only [exec]
    cases h2 : (c.listDatacenters (c.newValidator s (populate c.newData
        (connectionURL host username password path) username force)).2
        (c.newValidator s (populate c.newData
        (connectionURL host username password path) username force)).1.1).1.2 with
    | some e => simp [exec]
    | none => simp [exec, exec_printDatacenters]

/-- The run of `main` when `validate.NewValidator` returns an error. -/
theorem exec_main_validatorError {σ V : Type} (c : Collab σ V) (s : σ) (e : GoError)
    (h : (c.newValidator s (mainInput c.newData)).1.2 = some e) :
    exec c main s =
      [Event.out "hello world\n", Event.out serverURLLine,
       Event.out (c.fmtPlusV (mainInput c.newData) ++ "\n"),
       Event.newValidator (mainInput c.newData) (c.newValidator s (mainInput c.newData)).1,
       Event.out ("validator: " ++ e.Error)] := by
  unfold mainInput at h
  simp only [main, exec_mainWith, h]
  rfl

/-- The run of `main` when `validate.NewValidator` succeeds and `ListDatacenters` returns an
error. -/
theorem exec_main_queryError {σ V : Type} (c : Collab σ V) (s : σ) (e : GoError)
    (h1 : (c.newValidator s (mainInput c.newData)).1.2 = none)
    (h2 : (c.listDatacenters (c.newValidator s (mainInput c.newData)).2
            (c.newValidator s (mainInput c.newData)).1.1).1.2 = some e) :
    exec c main s =
      [Event.out "hello world\n", Event.out serverURLLine,
       Event.out (c.fmtPlusV (mainInput c.newData) ++ "\n"),
       Event.newValidator (mainInput c.newData) (c.newValidator s (mainInput c.newData)).1,
       Event.listDatacenters (c.newValidator s (mainInput c.newData)).1.1
         (c.listDatacenters (c.newValidator s (mainInput c.newData)).2
            (c.newValidator s (mainInput c.newData)).1.1).1,
       Event.out (e.Error ++ "\n")] := by
  unfold mainInput at h1 h2
  simp only [main, exec_mainWith, h1, h2]
  rfl

/-- The run of `main` when both calls succeed. -/
theorem exec_main_ok {σ V : Type} (c : Collab σ V) (s : σ)
    (h1 : (c.newValidator s (mainInput c.newData)).1.2 = none)
    (h2 : (c.listDatacenters (c.newValidator s (mainInput c.newData)).2
            (c.newValidator s (mainInput c.newData)).1.1).1.2 = none) :
    exec c main s =
      [Event.out "hello world\n", Event.out serverURLLine,
       Event.out (c.fmtPlusV (mainInput c.newData) ++ "\n"),
       Event.newValidator (mainInput c.newData) (c.newValidator s (mainInput c.newData)).1,
       Event.listDatacenters (c.newValidator s (mainInput c.newData)).1.1
         (c.listDatacenters (c.newValidator s (mainInput c.newData)).2
            (c.newValidator s (mainInput c.newData)).1.1).1]
      ++ (c.listDatacenters (c.newValidator s (mainInput c.newData)).2
            (c.newValidator s (mainInput c.newData)).1.1).1.1.map
          (fun d => Event.out ("DC: " ++ d ++ "\n")) := by
  unfold mainInput at h1 h2
  simp only [main, exec_mainWith, h1, h2]
  rfl

/-- The one descriptor a run hands to `validate.NewValidator`. -/
theorem validatorInputs_mainWith {σ V : Type} (c : Collab σ V) (s : σ)
    (host username password path : String) (force : Bool) :
    validatorInputs (exec c (mainWith host username password path force) s)
      = [buildDescriptor c.newData host username password path force] := by
  have hmap : ∀ ws : List String,
      validatorInputs (ws.map (fun w => (Event.out w : Event V))) = [] := by
    intro ws
    induction ws with
    | nil => rfl
    | cons w ws ih => simpa [validatorInputs] using ih
  have hmap2 : ∀ dcs : List String,
      validatorInputs (dcs.map (fun d => (Event.out ("DC: " ++ d ++ "\n") : Event V))) = [] := by
    intro dcs
    have := hmap (dcs.map (fun d => "DC: " ++ d ++ "\n"))
    simpa [List.map_map, Function.comp] using this
  rw [exec_mainWith]
  cases (c.newValidator s (buildDescriptor c.newData host username password path force)).1.2 with
  | some e => simp [validatorInputs]
  | none =>
    cases (c.listDatacenters
        (c.newValidator s (buildDescriptor c.newData host username password path force)).2
        (c.newValidator s
          (buildDescriptor c.newData host username password path force)).1.1).1.2 with
    | some e => simp [validatorInputs]
    | none => simp [validatorInputs, hmap2]

theorem not_beginsWith_DC_validator (x : String) : ¬ beginsWith "DC: " ("validator: " ++ x) := by
  intro h
  simp [beginsWith, String.data_append] at h

theorem beginsWith_DC_newline (x : String) :
    beginsWith "DC: " (x ++ "\n") ↔ beginsWith "DC: " x := by
  have hp : "DC: ".data = ['D', 'C', ':', ' '] := by decide
  have hn : "\n".data = ['\n'] := by decide
  unfold beginsWith
  rw [String.data_append, hp, hn]
  rcases x.data with _ | ⟨a, _ | ⟨b, _ | ⟨c, _ | ⟨d, r⟩⟩⟩⟩ <;>
    simp [List.cons_prefix_cons]

theorem countP_map_out {V : Type} (p : Event V → Bool) (hp : ∀ w, p (Event.out w) = false)
    (f : String → String) (dcs : List String) :
    ((dcs.map (fun d => (Event.out (f d) : Event V))).filter p).length = 0 := by
  induction dcs with
  | nil => rfl
  | cons d dcs ih => simp [List.filter_cons, hp]

theorem failuresAreTerminal_map_out {V : Type} (f : String → String) (dcs : List String) :
    failuresAreTerminal (dcs.map (fun d => (Event.out (f d) : Event V))) = true := by
  induction dcs with
  | nil => rfl
  | cons d dcs ih => simp [failuresAreTerminal, Event.failed, ih]

/-! ## The claims -/

/-- C1: fail-fast on construction error. Whatever the collaborator and its state, when
`validate.NewValidator` returns the error `e` for the descriptor of `main`: no event of the
run is a call of `ListDatacenters`; what the run writes is the greeting, the URL line, the
descriptor echo and then exactly `validator: ` followed by the text of `e`; no text written
after the echo begins with `DC: `; and the report is the last event of the run, which ends
there. A line is the text written by one call of `fmt`. -/
theorem construction_error_fails_fast {σ V : Type} (c : Collab σ V) (s : σ) (e : GoError)
    (h : (c.newValidator s (mainInput c.newData)).1.2 = some e) :
    (∀ ev ∈ exec c main s, ev.isListDatacenters = false) ∧
    outputs (exec c main s) =
      ["hello world\n", serverURLLine, c.fmtPlusV (mainInput c.newData) ++ "\n",
       "validator: " ++ e.Error] ∧
    (outputs (exec c main s)).drop 3 = ["validator: " ++ e.Error] ∧
    (∀ w ∈ (outputs (exec c main s)).drop 3, ¬ beginsWith "DC: " w) ∧
    (exec c main s).getLast? = some (Event.out ("validator: " ++ e.Error)) := by
  rw [exec_main_validatorError c s e h]
  refine ⟨?_, rfl, rfl, ?_, rfl⟩
  · intro ev hev
    simp only [List.mem_cons, List.mem_singleton, List.not_mem_nil, or_false] at hev
    rcases hev with rfl | rfl | rfl | rfl | rfl <;> rfl
  · intro w hw
    have hw2 : w = "validator: " ++ e.Error := by simpa [outputs] using hw
    rw [hw2]
    exact not_beginsWith_DC_validator e.Error

/-- C1 at a collaborator whose `validate.NewValidator` fails with "connection refused". -/
theorem construction_error_fails_fast_witness :
    ((scripted (some ⟨"connection refused"⟩) (["DC0"], none)).newValidator ()
        (mainInput (scripted (some ⟨"connection refused"⟩) (["DC0"], none)).newData)).1.2
      = some ⟨"connection refused"⟩ ∧
    (outputs (exec (scripted (some ⟨"connection refused"⟩) (["DC0"], none)) main ())).drop 3
      = ["validator: connection refused"] :=
  ⟨rfl, (construction_error_fails_fast (scripted (some ⟨"connection refused"⟩) (["DC0"], none))
    () ⟨"connection refused"⟩ rfl).2.2.1⟩

/-- C2: fail-fast on query error. Whatever the collaborator and its state, when
`validate.NewValidator` returns no error and `ListDatacenters` returns the error `e`, with
whatever sequence `dcs` beside it: the run is the three writes, the two calls and one last
write, the text of `e` and a newline, after which it ends; so what it writes after the
descriptor echo is exactly that report, one line that does not depend on `dcs`, and no
datacenter line: the loop of lines 65-67 is never reached and nothing of `dcs` is written.
The report, the only line after the echo, begins with `DC: ` only if the text of `e` itself
does. -/
theorem query_error_fails_fast {σ V : Type} (c : Collab σ V) (s : σ) (dcs : List String)
    (e : GoError)
    (h1 : (c.newValidator s (mainInput c.newData)).1.2 = none)
    (h2 : (c.listDatacenters (c.newValidator s (mainInput c.newData)).2
            (c.newValidator s (mainInput c.newData)).1.1).1 = (dcs, some e)) :
    exec c main s =
      [Event.out "hello world\n", Event.out serverURLLine,
       Event.out (c.fmtPlusV (mainInput c.newData) ++ "\n"),
       Event.newValidator (mainInput c.newData) (c.newValidator s (mainInput c.newData)).1,
       Event.listDatacenters (c.newValidator s (mainInput c.newData)).1.1 (dcs, some e),
       Event.out (e.Error ++ "\n")] ∧
    outputs (exec c main s) =
      ["hello world\n", serverURLLine, c.fmtPlusV (mainInput c.newData) ++ "\n",
       e.Error ++ "\n"] ∧
    (outputs (exec c main s)).drop 3 = [e.Error ++ "\n"] ∧
    ((outputs (exec c main s)).drop 3).length = 1 ∧
    (∀ w ∈ (outputs (exec c main s)).drop 3, beginsWith "DC: " w ↔ beginsWith "DC: " e.Error) ∧
    (exec c main s).getLast? = some (Event.out (e.Error ++ "\n")) := by
  have h2e : (c.listDatacenters (c.newValidator s (mainInput c.newData)).2
      (c.newValidator s (mainInput c.newData)).1.1).1.2 = some e := by rw [h2]
  rw [exec_main_queryError c s e h1 h2e, h2]
  refine ⟨rfl, rfl, rfl, rfl, ?_, rfl⟩
  intro w hw
  have hw2 : w = e.Error ++ "\n" := by simpa [outputs] using hw
  rw [hw2]
  exact beginsWith_DC_newline e.Error

/-- C2 at two collaborators whose `ListDatacenters` fails with "timeout", one beside the
partial sequence `["DC0"]` and one beside `["DC1", "DC2"]`: the same single line. -/
theorem query_error_fails_fast_witness :
    ((scripted none (["DC0"], some ⟨"timeout"⟩)).newValidator ()
        (mainInput (scripted none (["DC0"], some ⟨"timeout"⟩)).newData)).1.2 = none ∧
    ((scripted none (["DC0"], some ⟨"timeout"⟩)).listDatacenters () ()).1
      = (["DC0"], some ⟨"timeout"⟩) ∧
    (outputs (exec (scripted none (["DC0"], some ⟨"timeout"⟩)) main ())).drop 3
      = ["timeout\n"] ∧
    (outputs (exec (scripted none (["DC1", "DC2"], some ⟨"timeout"⟩)) main ())).drop 3
      = ["timeout\n"] :=
  ⟨rfl, rfl,
   (query_error_fails_fast (scripted none (["DC0"], some ⟨"timeout"⟩))
      () ["DC0"] ⟨"timeout"⟩ rfl rfl).2.2.1,
   (query_error_fails_fast (scripted none (["DC1", "DC2"], some ⟨"timeout"⟩))
      () ["DC1", "DC2"] ⟨"timeout"⟩ rfl rfl).2.2.1⟩

/-- C3: order preservation. Whatever the collaborator and its state, when
`validate.NewValidator` returns no error and `ListDatacenters` returns the sequence `dcs`
without error: what the run writes after the descriptor echo is exactly one line per element
of `dcs`, the line `DC: ` followed by the element (and its newline), in the order received,
nothing dropped, merged or moved; the run is the three writes, the two calls and these lines,
and ends after the last of them. For the empty sequence
that is no line at all, for `["DC0"]` the one line `DC: DC0`, and for `["DC1","DC2","DC3"]`
the three lines in that order. -/
theorem datacenters_printed_in_order {σ V : Type} (c : Collab σ V) (s : σ) (dcs : List String)
    (h1 : (c.newValidator s (mainInput c.newData)).1.2 = none)
    (h2 : (c.listDatacenters (c.newValidator s (mainInput c.newData)).2
            (c.newValidator s (mainInput c.newData)).1.1).1 = (dcs, none)) :
    (outputs (exec c main s)).drop 3
      = (dcs.map (fun d => "DC: " ++ d)).map (fun l => l ++ "\n") ∧
    outputs (exec c main s) =
      ["hello world\n", serverURLLine, c.fmtPlusV (mainInput c.newData) ++ "\n"]
        ++ dcs.map (fun d => "DC: " ++ d ++ "\n") ∧
    ((outputs (exec c main s)).drop 3).length = dcs.length ∧
    exec c main s =
      [Event.out "hello world\n", Event.out serverURLLine,
       Event.out (c.fmtPlusV (mainInput c.newData) ++ "\n"),
       Event.newValidator (mainInput c.newData) (c.newValidator s (mainInput c.newData)).1,
       Event.listDatacenters (c.newValidator s (mainInput c.newData)).1.1 (dcs, none)]
      ++ dcs.map (fun d => Event.out ("DC: " ++ d ++ "\n")) ∧
    (dcs = [] → (outputs (exec c main s)).drop 3 = []) ∧
    (dcs = ["DC0"] → (outputs (exec c main s)).drop 3 = ["DC: DC0\n"]) ∧
    (dcs = ["DC1", "DC2", "DC3"] →
      (outputs (exec c main s)).drop 3 = ["DC: DC1\n", "DC: DC2\n", "DC: DC3\n"]) := by
  have h2e : (c.listDatacenters (c.newValidator s (mainInput c.newData)).2
      (c.newValidator s (mainInput c.newData)).1.1).1.2 = none := by rw [h2]
  have h2d : (c.listDatacenters (c.newValidator s (mainInput c.newData)).2
      (c.newValidator s (mainInput c.newData)).1.1).1.1 = dcs := by rw [h2]
  have hout : outputs (exec c main s) =
      ["hello world\n", serverURLLine, c.fmtPlusV (mainInput c.newData) ++ "\n"]
        ++ dcs.map (fun d => "DC: " ++ d ++ "\n") := by
    rw [exec_main_ok c s h1 h2e, h2d, outputs_append]
    have hm : dcs.map (fun d => (Event.out ("DC: " ++ d ++ "\n") : Event V))
        = (dcs.map (fun d => "DC: " ++ d ++ "\n")).map (fun w => Event.out w) := by
      simp [List.map_map, Function.comp]
    rw [hm, outputs_map_out]
    rfl
  have hdrop : (outputs (exec c main s)).drop 3 = dcs.map (fun d => "DC: " ++ d ++ "\n") := by
    rw [hout]
    rfl
  refine ⟨?_, hout, ?_, ?_, ?_, ?_, ?_⟩
  · rw [hdrop]
    simp [List.map_map, Function.comp]
  · rw [hdrop, List.length_map]
  · rw [exec_main_ok c s h1 h2e, h2]
  · intro h
    rw [hdrop, h]
    rfl
  · intro h
    rw [hdrop, h]
    rfl
  · intro h
    rw [hdrop, h]
    rfl

/-- C3 at three collaborators, returning `["DC1","DC2","DC3"]`, the empty sequence and
`["DC0"]`. -/
theorem datacenters_printed_in_order_witness :
    ((scripted none (["DC1", "DC2", "DC3"], none)).newValidator ()
        (mainInput (scripted none (["DC1", "DC2", "DC3"], none)).newData)).1.2 = none ∧
    (outputs (exec (scripted none (["DC1", "DC2", "DC3"], none)) main ())).drop 3
      = ["DC: DC1\n", "DC: DC2\n", "DC: DC3\n"] ∧
    (outputs (exec (scripted none ([], none)) main ())).drop 3 = [] ∧
    (outputs (exec (scripted none (["DC0"], none)) main ())).drop 3 = ["DC: DC0\n"] :=
  ⟨rfl,
   (datacenters_printed_in_order (scripted none (["DC1", "DC2", "DC3"], none)) ()
      ["DC1", "DC2", "DC3"] rfl rfl).2.2.2.2.2.2 rfl,
   (datacenters_printed_in_order (scripted none ([], none)) () [] rfl rfl).2.2.2.2.1 rfl,
   (datacenters_printed_in_order (scripted none (["DC0"], none)) () ["DC0"] rfl rfl).2.2.2.2.2.1
      rfl⟩

/-- C8: no retries. In every run of `main`, whatever the collaborator and its state,
`validate.NewValidator` is called exactly once; `ListDatacenters` is called at most once, and
exactly once if and only if `validate.NewValidator` returned no error; and a call that
returned an error is followed by no call at all. -/
theorem no_retries {σ V : Type} (c : Collab σ V) (s : σ) :
    ((exec c main s).filter Event.isNewValidator).length = 1 ∧
    ((exec c main s).filter Event.isListDatacenters).length ≤ 1 ∧
    (((exec c main s).filter Event.isListDatacenters).length = 1 ↔
      (c.newValidator s (mainInput c.newData)).1.2 = none) ∧
    failuresAreTerminal (exec c main s) = true := by
  cases h1 : (c.newValidator s (mainInput c.newData)).1.2 with
  | some e =>
    rw [exec_main_validatorError c s e h1]
    simp [List.filter_cons, Event.isNewValidator, Event.isListDatacenters, failuresAreTerminal,
      Event.failed]
  | none =>
    cases h2 : (c.listDatacenters (c.newValidator s (mainInput c.newData)).2
        (c.newValidator s (mainInput c.newData)).1.1).1.2 with
    | some e =>
      rw [exec_main_queryError c s e h1 h2]
      simp [List.filter_cons, Event.isNewValidator, Event.isListDatacenters,
        failuresAreTerminal, Event.failed, h1]
    | none =>
      rw [exec_main_ok c s h1 h2]
      have hnv := countP_map_out (V := V) Event.isNewValidator (fun _ => rfl)
        (fun d => "DC: " ++ d ++ "\n")
        (c.listDatacenters (c.newValidator s (mainInput c.newData)).2
          (c.newValidator s (mainInput c.newData)).1.1).1.1
      have hld := countP_map_out (V := V) Event.isListDatacenters (fun _ => rfl)
        (fun d => "DC: " ++ d ++ "\n")
        (c.listDatacenters (c.newValidator s (mainInput c.newData)).2
          (c.newValidator s (mainInput c.newData)).1.1).1.1
      have hft := failuresAreTerminal_map_out (V := V) (fun d => "DC: " ++ d ++ "\n")
        (c.listDatacenters (c.newValidator s (mainInput c.newData)).2
          (c.newValidator s (mainInput c.newData)).1.1).1.1
      simp only [List.cons_append, List.nil_append, List.filter_cons, Event.isNewValidator,
        Event.isListDatacenters, failuresAreTerminal, Event.failed, h1, h2]
      simp [hnv, hld, hft, Event.failed, Event.isNewValidator, Event.isListDatacenters]

/-- C4: descriptor round trip. For every host, user name, password, path and force flag, and
whatever `data.NewData()` returned, the construction of lines 33-51 yields a descriptor with a
URL whose host and path are the inputs, whose userinfo reads back as the user name and the
password, and whose `User`, `Password` and `Force` are the inputs: it is a total function,
no string is rejected. Leaving out the assignment of the path is the same as passing the empty
path, and on a fresh `Data` leaving out the assignment of `Force` is the same as passing
false. At the literals of the file the descriptor has host "192.168.1.86", user "root",
password "password", path "" and force true. -/
theorem descriptor_round_trip (input : Data) (host username password path : String)
    (force : Bool) :
    ((buildDescriptor input host username password path force).URL.map URL.Host = some host ∧
     (buildDescriptor input host username password path force).URL.map URL.Path = some path ∧
     (buildDescriptor input host username password path force).URL.map
        (fun u => Userinfo.Username u.User) = some username ∧
     (buildDescriptor input host username password path force).URL.map
        (fun u => Userinfo.Password u.User) = some (password, true) ∧
     (buildDescriptor input host username password path force).User = username ∧
     (buildDescriptor input host username password path force).Password = some password ∧
     (buildDescriptor input host username password path force).Force = force) ∧
    (connectionURL host username password ""
        = { URL.zero with User := UserPassword username password, Host := host } ∧
     buildDescriptor NewData host username password path false
        = { NewData with
            OpsUser := username, OpsPassword := some password,
            URL := some (connectionURL host username password path),
            User := username, Password := some password }) ∧
    ((mainInput input).URL.map URL.Host = some "192.168.1.86" ∧
     (mainInput input).User = "root" ∧
     (mainInput input).Password = some "password" ∧
     (mainInput input).URL.map URL.Path = some "" ∧
     (mainInput input).Force = true) :=
  ⟨⟨rfl, rfl, rfl, rfl, rfl, rfl, rfl⟩, ⟨rfl, rfl⟩, ⟨rfl, rfl, rfl, rfl, rfl⟩⟩

set_option maxRecDepth 10000 in
/-- C5: what line 40 writes. In every run the second text written is the line of
`fmt.Printf("server URL: %s\n", u)`; `u` is passed by value, so `fmt` dumps the struct, and
the line is not the URL with its userinfo: the text `root:password@192.168.1.86` does not
occur in it. -/
theorem server_url_line_is_struct_dump {σ V : Type} (c : Collab σ V) (s : σ) :
    (outputs (exec c main s))[1]? = some serverURLLine ∧
    serverURLLine = "server URL: \x7b  root:password 192.168.1.86   %!s(bool=false) %!s(bool=false)   \x7d\n" ∧
    ¬ occursIn "root:password@192.168.1.86" serverURLLine := by
  refine ⟨?_, by decide, by decide⟩
  rw [main, exec_mainWith]
  rfl

/-- C6 fails as stated: for the empty user name and the empty password, a pair in which
neither is set, the constructed descriptor has an empty `User` and `OpsUser` beside non-nil
`Password` and `OpsPassword`, so the user name is not set while the password is; and for the
empty user name with the password "secret" the descriptor has an empty `User` beside a
`Password` that points to "secret". -/
theorem credentials_invariant_counterexample :
    ((buildDescriptor NewData "192.168.1.86" "" "" "" true).User = "" ∧
     (buildDescriptor NewData "192.168.1.86" "" "" "" true).Password = some "" ∧
     (buildDescriptor NewData "192.168.1.86" "" "" "" true).OpsUser = "" ∧
     (buildDescriptor NewData "192.168.1.86" "" "" "" true).OpsPassword = some "" ∧
     ¬ credentialsSetTogether (buildDescriptor NewData "192.168.1.86" "" "" "" true)) ∧
    ((buildDescriptor NewData "192.168.1.86" "" "secret" "" true).User = "" ∧
     (buildDescriptor NewData "192.168.1.86" "" "secret" "" true).Password = some "secret" ∧
     ¬ credentialsSetTogether (buildDescriptor NewData "192.168.1.86" "" "secret" "" true)) := by
  refine ⟨⟨rfl, rfl, rfl, rfl, by decide⟩, rfl, rfl, by decide⟩

/-- C6, as amended: the one descriptor `main` hands to `validate.NewValidator` satisfies the
data-model invariants: `User` and `OpsUser` are not empty, `Password` and `OpsPassword` are
not nil, and the host is not empty. For arbitrary inputs the construction copies the user
name into `User` and `OpsUser` and always sets `Password` and `OpsPassword` to a non-nil
pointer to the input password, so the credentials of the result are set together exactly
when the user name is not empty, and its host is non-empty exactly when the input host is. -/
theorem credentials_invariant {σ V : Type} (c : Collab σ V) (s : σ) (input : Data)
    (host username password path : String) (force : Bool) :
    (validatorInputs (exec c main s) = [mainInput c.newData] ∧
     (mainInput c.newData).User ≠ "" ∧ (mainInput c.newData).Password ≠ none ∧
     (mainInput c.newData).OpsUser ≠ "" ∧ (mainInput c.newData).OpsPassword ≠ none ∧
     credentialsSetTogether (mainInput c.newData) ∧ hostNonEmpty (mainInput c.newData)) ∧
    ((buildDescriptor input host username password path force).User = username ∧
     (buildDescriptor input host username password path force).OpsUser = username ∧
     (buildDescriptor input host username password path force).Password = some password ∧
     (buildDescriptor input host username password path force).OpsPassword = some password ∧
     (credentialsSetTogether (buildDescriptor input host username password path force)
        ↔ username ≠ "") ∧
     (hostNonEmpty (buildDescriptor input host username password path force) ↔ host ≠ "")) := by
  refine ⟨⟨validatorInputs_mainWith c s _ _ _ _ _, ?_, ?_, ?_, ?_, ?_, ?_⟩,
    rfl, rfl, rfl, rfl, ?_, ?_⟩
  · simp [mainInput, buildDescriptor, populate]
  · simp [mainInput, buildDescriptor, populate]
  · simp [mainInput, buildDescriptor, populate, connectionURL, UserPassword, Userinfo.Username]
  · simp [mainInput, buildDescriptor, populate]
  · simp [credentialsSetTogether, mainInput, buildDescriptor, populate, connectionURL,
      UserPassword, Userinfo.Username, Userinfo.Password]
  · simp [hostNonEmpty, mainInput, buildDescriptor, populate, connectionURL]
  · simp [credentialsSetTogether, buildDescriptor, populate, connectionURL,
      UserPassword, Userinfo.Username, Userinfo.Password]
  · simp [hostNonEmpty, buildDescriptor, populate, connectionURL]

/-- C9: userinfo round trip. For every user name and password, the empty password included,
`Username()` and the first result of `Password()` on `url.UserPassword(username, password)`
are the user name and the password, and the second result of `Password()` is true; so the
`OpsUser` and `OpsPassword` that `main` reads back from the URL are the originals. -/
theorem userinfo_round_trip (input : Data) (host username password path : String)
    (force : Bool) :
    Userinfo.Username (UserPassword username password) = username ∧
    (Userinfo.Password (UserPassword username password)).1 = password ∧
    (Userinfo.Password (UserPassword username password)).2 = true ∧
    Userinfo.Password (UserPassword username "") = ("", true) ∧
    (connectionURL host username password path).User = UserPassword username password ∧
    (populate input (connectionURL host username password path) username force).OpsUser
      = username ∧
    (populate input (connectionURL host username password path) username force).OpsPassword
      = some password :=
  ⟨rfl, rfl, rfl, rfl, rfl, rfl, rfl⟩

/-- C10: the operations credentials mirror the administrative ones. For every user name and
password, every collaborator and state, the run hands exactly one descriptor to
`validate.NewValidator`, and in it `OpsUser` equals `User`, `OpsPassword` and `Password`
point to equal values, the input password, `Force` is true, and the URL carries the same
user name and password and the host. -/
theorem ops_credentials_mirror {σ V : Type} (c : Collab σ V) (s : σ)
    (username password : String) :
    validatorInputs (exec c (mainWith "192.168.1.86" username password "" true) s)
      = [buildDescriptor c.newData "192.168.1.86" username password "" true] ∧
    (buildDescriptor c.newData "192.168.1.86" username password "" true).OpsUser
      = (buildDescriptor c.newData "192.168.1.86" username password "" true).User ∧
    (buildDescriptor c.newData "192.168.1.86" username password "" true).OpsPassword
      = (buildDescriptor c.newData "192.168.1.86" username password "" true).Password ∧
    (buildDescriptor c.newData "192.168.1.86" username password "" true).User = username ∧
    (buildDescriptor c.newData "192.168.1.86" username password "" true).Password
      = some password ∧
    (buildDescriptor c.newData "192.168.1.86" username password "" true).Force = true ∧
    (buildDescriptor c.newData "192.168.1.86" username password "" true).URL
      = some { URL.zero with
          User := some { username := username, password := password, passwordSet := true },
          Host := "192.168.1.86" } :=
  ⟨validatorInputs_mainWith c s _ _ _ _ _, rfl, rfl, rfl, rfl, rfl, rfl⟩

end EngineInstaller
